import Mathlib

/-!
# Verification of the WhatsApp sales-lead qualification engine

Shallow embedding of the extraction/validation/scoring core of the
`ai-whatsapp-sales-agent` repository (`validators.py`, `app.py`).
Python strings are modelled as `List Char`; Python string methods
(`strip`, `upper`, `replace`, `split`, `in`, `capitalize`) are embedded
as executable functions; a Python exception escaping a function is
modelled with `Except`.  Numeric parsing (`int(float(s) * mult)`) is
modelled bit-exactly: the decimal string is rounded to the nearest IEEE-754
double (computed exactly over the naturals, round to nearest, ties to
even), the multiplication re-rounds in double precision, `int()`
truncates, and `float()` overflow to infinity followed by `int(inf)` is
the uncaught `OverflowError`.
-/

/-- Characters of a string literal, the `List Char` view of a Python `str`. -/
def chars (s : String) : List Char := s.data

/-- The apostrophe character (code point 39). -/
def apos : Char := Char.ofNat 39

/-- ASCII whitespace as recognised by Python `str.strip` / `str.split()`. -/
def pyIsSpace (c : Char) : Bool :=
  c == ' ' || c == '\t' || c == '\n' || c == '\r' || c == '\x0b' || c == '\x0c'

/-- Python `str.strip()`: remove leading and trailing whitespace. -/
def pyStrip (l : List Char) : List Char :=
  ((l.dropWhile pyIsSpace).reverse.dropWhile pyIsSpace).reverse

/-- Python `str.capitalize()`: first character uppercased, the rest lowercased. -/
def pyCapitalize : List Char → List Char
  | [] => []
  | c :: rest => Char.toUpper c :: rest.map Char.toLower

/-- Helper for `pySplitWs`: accumulate the current (reversed) token. -/
def pySplitWsAux : List Char → List Char → List (List Char)
  | cur, [] => if cur.isEmpty then [] else [cur.reverse]
  | cur, c :: rest =>
    if pyIsSpace c then
      if cur.isEmpty then pySplitWsAux [] rest
      else cur.reverse :: pySplitWsAux [] rest
    else pySplitWsAux (c :: cur) rest

/-- Python `str.split()` with no argument: split on whitespace runs,
discarding empty tokens. -/
def pySplitWs (l : List Char) : List (List Char) := pySplitWsAux [] l

/-- Helper for `pySplit`.  The separator is the non-empty string
`s :: ss`; the first argument counts separator characters still to be
skipped after a match, the second accumulates the current (reversed)
part. -/
def pySplitAux (s : Char) (ss : List Char) : Nat → List Char → List Char → List (List Char)
  | _, acc, [] => [acc.reverse]
  | k + 1, acc, _ :: rest => pySplitAux s ss k acc rest
  | 0, acc, c :: rest =>
    if c == s && List.isPrefixOf ss rest then
      acc.reverse :: pySplitAux s ss ss.length [] rest
    else
      pySplitAux s ss 0 (c :: acc) rest

/-- Python `str.split(sep)` for the non-empty separator `s :: ss`:
non-overlapping left-to-right splitting, keeping empty parts. -/
def pySplit (s : Char) (ss : List Char) (l : List Char) : List (List Char) :=
  pySplitAux s ss 0 [] l

/-- Python `str.replace(sep, "")` for the non-empty separator `s :: ss`. -/
def pyRemoveAll (s : Char) (ss : List Char) (l : List Char) : List Char :=
  (pySplit s ss l).flatten

/-- Does the non-empty string `s :: ss` occur as a contiguous substring? -/
def pyContainsSub (s : Char) (ss : List Char) : List Char → Bool
  | [] => false
  | c :: rest => (c == s && List.isPrefixOf ss rest) || pyContainsSub s ss rest

/-- Python `needle in hay` on strings (empty needle is contained everywhere). -/
def pyIn (needle hay : List Char) : Bool :=
  match needle with
  | [] => true
  | c :: cs => pyContainsSub c cs hay

/-- Digits-to-number: numeric value of a list of decimal digit characters. -/
def natOfDigits (l : List Char) : Nat :=
  l.foldl (fun n c => n * 10 + (c.toNat - 48)) 0

/-- Group a reversed digit list in threes, inserting `,` (helper for
`pyFormatComma`). -/
def groupRev : List Char → List Char
  | a :: b :: c :: d :: rest => a :: b :: c :: ',' :: groupRev (d :: rest)
  | l => l

/-- Decimal digit character of `n < 10`. -/
def digitChar (n : Nat) : Char := Char.ofNat (48 + n)

/-- Decimal digits of `n`, least significant first, with explicit fuel. -/
def natDigitsRev : Nat → Nat → List Char
  | 0, _ => []
  | fuel + 1, n => if n < 10 then [digitChar n] else digitChar (n % 10) :: natDigitsRev fuel (n / 10)

/-- Python format spec `{n:,}` on a non-negative int: decimal digits with
thousands separators. -/
def pyFormatComma (n : Nat) : List Char :=
  (groupRev (natDigitsRev (n + 1) n)).reverse

/-- Python `float(s)` on a string made of digits and dots, as an exact
triple `(intPart, fracPart, fracDigits)`; `none` models `ValueError`. -/
def parseDec (l : List Char) : Option (Nat × Nat × Nat) :=
  if l.isEmpty then none
  else
    match pySplit '.' [] l with
    | [p] => if p.all Char.isDigit then some (natOfDigits p, 0, 0) else none
    | [p, q] =>
      if p.all Char.isDigit && q.all Char.isDigit && !(p.isEmpty && q.isEmpty) then
        some (natOfDigits p, natOfDigits q, q.length)
      else none
    | _ => none

example : pyStrip (chars "  ab c  ") = chars "ab c" := by decide
example : pySplit '-' [] (chars "500K-1M") = [chars "500K", chars "1M"] := by decide
example : pySplit 'T' (chars "O") (chars "TOTO") = [[], [], []] := by decide
example : pyRemoveAll 'A' (chars "ED") (chars "AED 500") = chars " 500" := by decide
example : pyIn (chars "TO") (chars "500 TO 600") = true := by decide
example : pyIn (chars "TO") (chars "500-600") = false := by decide
example : pyFormatComma 1500000 = chars "1,500,000" := by decide
example : pySplitWs (chars " john  o brien ") = [chars "john", chars "o", chars "brien"] := by decide
example : pyCapitalize (chars "o" ++ [apos] ++ chars "BRIEN") = chars "O" ++ [apos] ++ chars "brien" := by decide

/-! ## Data model: validation results, budget values, exceptions -/

/-- A Python exception escaping the core: the `TypeError` raised when a
dict meets the `{...:,}` format spec in an f-string, and the
`OverflowError` raised by `int(inf)` after `float()` overflows. -/
inductive Exn where
  | typeError
  | overflowError
deriving DecidableEq, Repr

/-- `ValidationResult` from `validators.py`: `is_valid`, `value`, `message`. -/
structure VRes (α : Type) where
  is_valid : Bool
  value : Option α
  message : List Char
deriving DecidableEq, Repr

/-- The dict stored as a budget value: `{"value": n, "type": "fixed"}` or
`{"min": lo, "max": hi, "type": "range"}` (the latter is built but, as
proved below, never returned). -/
inductive BVal where
  | fixed (value : Nat)
  | range (min max : BVal)
deriving DecidableEq, Repr

deriving instance DecidableEq for Except

/-! ## IEEE-754 double semantics for `int(float(s) * mult)`

CPython parses a numeral with a correctly rounded decimal-to-double
conversion, multiplies in double precision (round to nearest, ties to
even), and `int()` truncates toward zero.  `float()` of a numeral at or
beyond about 1.8e308 is `inf`, and `int(inf)` raises `OverflowError`,
which the `except (ValueError, AttributeError)` of validators.py line 157
does not catch.  The correctly rounded double is computed exactly over
the naturals. -/

/-- A non-negative Python float: `finite m e` has value `m * 2^e` with
`m < 2^53` and `-1074 ≤ e ≤ 971`; `inf` is the overflow result. -/
inductive PDouble where
  | finite (m : Nat) (e : Int)
  | inf
deriving DecidableEq, Repr

/-- `⌊log2 n⌋` for `n ≥ 1`, first argument as fuel. -/
def floorLog2Go : Nat → Nat → Nat
  | 0, _ => 0
  | fuel + 1, n => if n < 2 then 0 else floorLog2Go fuel (n / 2) + 1

def floorLog2 (n : Nat) : Nat := floorLog2Go n n

/-- Does `2^t ≤ N / D` hold, as exact rationals (`D ≥ 1`)? -/
def le2pow (t : Int) (N D : Nat) : Bool :=
  if 0 ≤ t then 2 ^ t.toNat * D ≤ N else D ≤ N * 2 ^ (-t).toNat

/-- `⌊log2 (N / D)⌋` for `N, D ≥ 1`: the floor is one of the two values
bracketing `⌊log2 N⌋ - ⌊log2 D⌋`, decided by one exact comparison. -/
def floorLog2Rat (N D : Nat) : Int :=
  if le2pow ((floorLog2 N : Int) - (floorLog2 D : Int)) N D then
    (floorLog2 N : Int) - (floorLog2 D : Int)
  else (floorLog2 N : Int) - (floorLog2 D : Int) - 1

/-- Round `A / B` to the nearest integer, ties to even (`B ≥ 1`). -/
def roundHalfEven (A B : Nat) : Nat :=
  if B < 2 * (A % B) then A / B + 1
  else if 2 * (A % B) < B then A / B
  else if A / B % 2 = 1 then A / B + 1 else A / B

/-- Round the exact rational `N / D` (`D ≥ 1`) to the nearest double:
pick the exponent `e` with `2^(52+e) ≤ N/D < 2^(53+e)` (clamped to the
subnormal range), round the mantissa half-to-even, carry a mantissa of
`2^53`, and overflow to `inf` beyond the largest finite exponent. -/
def roundDouble (N D : Nat) : PDouble :=
  if N = 0 then .finite 0 0
  else
    let e := max (floorLog2Rat N D - 52) (-1074)
    let m := if 0 ≤ e then roundHalfEven N (D * 2 ^ e.toNat)
      else roundHalfEven (N * 2 ^ (-e).toNat) D
    if m = 2 ^ 53 then
      (if 971 < e + 1 then .inf else .finite (2 ^ 52) (e + 1))
    else if 971 < e then .inf else .finite m e

/-- Double-precision product with a natural (the ints 1, 1000, 100000 and
1000000 convert to doubles exactly, so the exact product is re-rounded). -/
def pDoubleMulNat : PDouble → Nat → PDouble
  | .inf, _ => .inf
  | .finite m e, mult =>
    if 0 ≤ e then roundDouble (m * mult * 2 ^ e.toNat) 1
    else roundDouble (m * mult) (2 ^ (-e).toNat)

/-- `float(s)` of the parsed decimal `a . b` with `k` fractional digits. -/
def pyFloatDec (a b k : Nat) : PDouble :=
  roundDouble (a * 10 ^ k + b) (10 ^ k)

/-- Python `int(d)`: truncation toward zero; `none` is the
`OverflowError` of `int(inf)`. -/
def pyTruncInt : PDouble → Option Nat
  | .inf => none
  | .finite m e => some (if 0 ≤ e then m * 2 ^ e.toNat else m / 2 ^ (-e).toNat)

/-- `int(float(a.b) * mult)`; `none` is the uncaught `OverflowError`. -/
def pyIntFloatMul (a b k mult : Nat) : Option Nat :=
  match pyFloatDec a b k with
  | .inf => none
  | .finite m e => pyTruncInt (pDoubleMulNat (.finite m e) mult)

/-! ## validate_budget (validators.py lines 85-158) -/

/-- `number = float(re.sub(r"[^\d.]", "", l))` followed by
`value = int(number * mult)` (lines 128-143): strip every character that
is not a digit or a dot, convert to a double, multiply in double
precision and truncate.  `.ok none` is the `ValueError` of a malformed
numeral, caught on line 157; `.error .overflowError` is the uncaught
`OverflowError` of `int(inf)`. -/
def parseScaled (l : List Char) (mult : Nat) : Except Exn (Option Nat) :=
  match parseDec (l.filter (fun c => c.isDigit || c == '.')) with
  | none => .ok none
  | some (a, b, k) =>
    match pyIntFloatMul a b k mult with
    | none => .error .overflowError
    | some v => .ok (some v)

/-- 200 nines: a numeral whose float is the finite `1e200`. -/
def nines (n : Nat) : List Char := List.replicate n '9'

example : parseScaled (chars "1.5") 1000000 = .ok (some 1500000) := by decide
example : parseScaled (chars "500-600") 1 = .ok (some 500600) := by decide
example : parseScaled (chars ".") 1 = .ok none := by decide
example : parseScaled (chars "10.15") 1000 = .ok (some 10150) := by decide
example : parseScaled (chars "0.577") 100000 = .ok (some 57699) := by decide
set_option maxRecDepth 10000 in
example : parseScaled (nines 400) 1 = .error .overflowError := by decide

/-- Input cleaning of `validate_budget` (lines 106-108): strip, uppercase,
drop currency tokens `AED`, `DIRHAMS`, `DHS`, drop commas, strip again. -/
def vbClean (input : List Char) : List Char :=
  pyStrip ((pyRemoveAll 'D' (chars "HS")
    (pyRemoveAll 'D' (chars "IRHAMS")
      (pyRemoveAll 'A' (chars "ED")
        ((pyStrip input).map Char.toUpper)))).filter (fun c => c != ','))

/-- Range-separator choice of line 112: `'-'` if present, else `'TO'`. -/
def vbParts (text : List Char) : List (List Char) :=
  if pyIn (chars "-") text then pySplit '-' [] text
  else pySplit 'T' (chars "O") text

/-- Range check and result construction of lines 145-155: reject below
10,000 (`Budget seems too low`) or above 1,000,000,000, otherwise a
`Valid` fixed amount. -/
def vbFinish (v : Nat) : VRes BVal :=
  if v < 10000 then ⟨false, none, chars "Budget seems too low"⟩
  else if v > 1000000000 then ⟨false, none, chars "Budget seems too high"⟩
  else ⟨true, some (BVal.fixed v), chars "Budget: " ++ pyFormatComma v ++ chars " AED"⟩

/-- Outcome of one suffix branch of the single-amount parse: a numeral
`ValueError` is caught by line 157 (`Could not parse budget amount`), an
`OverflowError` propagates, and a value goes through the range check. -/
def vbSingleBranch : Except Exn (Option Nat) → Except Exn (VRes BVal)
  | .error e => .error e
  | .ok none => .ok ⟨false, none, chars "Could not parse budget amount"⟩
  | .ok (some v) => .ok (vbFinish v)

/-- Single-amount parsing of `validate_budget` (lines 124-158).  `K`
multiplies by 1,000; `M` by 1,000,000; `MILLION` (dead: it contains `M`)
by 1,000,000; `LAKH` (dead: it contains `K`) by 100,000; otherwise the
digits are read literally. -/
def vbSingle (text : List Char) : Except Exn (VRes BVal) :=
  if pyIn (chars "K") text then vbSingleBranch (parseScaled (text.filter (fun c => c != 'K')) 1000)
  else if pyIn (chars "M") text then vbSingleBranch (parseScaled (text.filter (fun c => c != 'M')) 1000000)
  else if pyIn (chars "MILLION") text then vbSingleBranch (parseScaled (pyRemoveAll 'M' (chars "ILLION") text) 1000000)
  else if pyIn (chars "LAKH") text then vbSingleBranch (parseScaled (pyRemoveAll 'L' (chars "AKH") text) 100000)
  else vbSingleBranch (parseScaled text 1)

/-- Lines 115-122 given the two recursive part results: if either part's
validation raised, the exception propagates (the call on line 115 or 116
never returns); if both returned `Valid` results, line 121 builds
`f"Budget range: {min_result.value:,} - {max_result.value:,} AED"`, and
formatting the parts' dict values with the `,` format spec raises
`TypeError` (uncaught: the `try` starts at line 125), so the function
raises instead of returning the range; otherwise control falls through to
single-amount parsing. -/
def vbRangeStep (m0 m1 single : Except Exn (VRes BVal)) : Except Exn (VRes BVal) :=
  match m0 with
  | .error e => .error e
  | .ok rmin =>
    match m1 with
    | .error e => .error e
    | .ok rmax =>
      if rmin.is_valid && rmax.is_valid then .error .typeError
      else single

def vbBody (recur : List Char → Except Exn (VRes BVal)) (input : List Char) : Except Exn (VRes BVal) :=
  if input.isEmpty then .ok ⟨false, none, chars "No budget provided"⟩
  else if pyIn (chars "-") (vbClean input) || pyIn (chars "TO") (vbClean input) then
    match vbParts (vbClean input) with
    | [p0, p1] =>
      vbRangeStep (recur (pyStrip p0)) (recur (pyStrip p1)) (vbSingle (vbClean input))
    | _ => vbSingle (vbClean input)
  else vbSingle (vbClean input)

/-- Fuel-indexed recursion for `validate_budget`; the recursive calls are
on strictly shorter strings, so any fuel above the input length is enough. -/
def vbGo : Nat → List Char → Except Exn (VRes BVal)
  | 0, _ => .ok ⟨false, none, chars "fuel exhausted"⟩
  | fuel + 1, input => vbBody (vbGo fuel) input

/-- `validate_budget` from `validators.py` (lines 85-158). -/
def validate_budget (input : List Char) : Except Exn (VRes BVal) :=
  vbGo (input.length + 1) input

example : validate_budget (chars "500k") =
    .ok ⟨true, some (BVal.fixed 500000), chars "Budget: 500,000 AED"⟩ := by decide
example : validate_budget (chars "1.5M") =
    .ok ⟨true, some (BVal.fixed 1500000), chars "Budget: 1,500,000 AED"⟩ := by decide
example : validate_budget (chars "5000") =
    .ok ⟨false, none, chars "Budget seems too low"⟩ := by decide
example : validate_budget (chars "500k-1M") = .error .typeError := by decide
example : validate_budget (chars "1M-500k") = .error .typeError := by decide
example : validate_budget (chars "500-600") =
    .ok ⟨true, some (BVal.fixed 500600), chars "Budget: 500,600 AED"⟩ := by decide
example : validate_budget (chars "5 lakh") =
    .ok ⟨false, none, chars "Budget seems too low"⟩ := by decide
example : validate_budget (chars "1M-2M TO 3M") = .error .typeError := by decide
set_option maxRecDepth 10000 in
example : validate_budget (nines 200 ++ chars "-" ++ nines 200) = .error .overflowError := by
  decide
example : validate_budget (chars "AED 1,500,000") =
    .ok ⟨true, some (BVal.fixed 1500000), chars "Budget: 1,500,000 AED"⟩ := by decide
example : validate_budget [] = .ok ⟨false, none, chars "No budget provided"⟩ := by decide

/-! ## validate_name (validators.py lines 161-194) -/

/-- Character class of the regex `^[a-zA-Z\s\-'\.]+$` on line 188:
letters, whitespace, hyphen, apostrophe, period. -/
def nameAllowedChar (c : Char) : Bool :=
  c.isAlpha || pyIsSpace c || c == '-' || c == apos || c == '.'

/-- `validate_name` from `validators.py` (lines 161-194); `cleaned` of the
source is inlined as `pyStrip name_input`. -/
def validate_name (name_input : List Char) : VRes (List Char) :=
  if name_input.isEmpty then ⟨false, none, chars "No name provided"⟩
  else if (pyStrip name_input).length < 2 then ⟨false, none, chars "Name too short"⟩
  else if (pyStrip name_input).length > 100 then ⟨false, none, chars "Name too long"⟩
  else if 2 < ((pyStrip name_input).filter Char.isDigit).length then
    ⟨false, none, chars "Name contains too many numbers"⟩
  else if !(pyStrip name_input).all nameAllowedChar then
    ⟨false, none, chars "Name contains invalid characters"⟩
  else
    ⟨true, some (List.intercalate [' '] ((pySplitWs (pyStrip name_input)).map pyCapitalize)),
      chars "Valid name"⟩

example : validate_name (chars "john o" ++ [apos] ++ chars "brien") =
    ⟨true, some (chars "John O" ++ [apos] ++ chars "brien"), chars "Valid name"⟩ := by decide
example : validate_name (chars "x") = ⟨false, none, chars "Name too short"⟩ := by decide
example : validate_name (chars "John123456") =
    ⟨false, none, chars "Name contains too many numbers"⟩ := by decide
example : validate_name (chars "Mohammed 2") =
    ⟨false, none, chars "Name contains invalid characters"⟩ := by decide
example : validate_name (chars "500k") =
    ⟨false, none, chars "Name contains too many numbers"⟩ := by decide

/-! ## Extractors (validators.py lines 197-255) -/

/-- The fixed ordered list of Dubai area names (lines 208-217). -/
def dubaiAreas : List (List Char) :=
  [chars "Downtown Dubai", chars "Dubai Marina", chars "Palm Jumeirah", chars "JBR",
   chars "Jumeirah Beach Residence", chars "Business Bay", chars "Dubai Hills",
   chars "Arabian Ranches", chars "Jumeirah Village Circle", chars "JVC",
   chars "Dubai Sports City", chars "Motor City", chars "Studio City",
   chars "Discovery Gardens", chars "JLT", chars "Jumeirah Lakes Towers", chars "DIFC",
   chars "Dubai International Financial Centre", chars "Mirdif", chars "Deira",
   chars "Bur Dubai", chars "Karama", chars "Satwa", chars "Al Barsha", chars "Jumeirah",
   chars "Umm Suqeim", chars "Al Quoz", chars "Dubai Silicon Oasis", chars "DSO",
   chars "International City", chars "Dubai Creek Harbour", chars "City Walk",
   chars "Al Furjan", chars "Damac Hills", chars "Dubai South", chars "Town Square",
   chars "Reem", chars "Mira", chars "Tilal Al Ghaf", chars "Dubai Land"]

/-- `extract_location` from `validators.py` (lines 197-225): first area of
the list whose uppercase form occurs in the uppercased message. -/
def extract_location (text : List Char) : Option (List Char) :=
  dubaiAreas.find? (fun area => pyIn (area.map Char.toUpper) (text.map Char.toUpper))

/-- The property-type mapping of lines 240-248, in declaration order. -/
def property_types : List (List Char × List (List Char)) :=
  [(chars "apartment", [chars "apartment", chars "flat", chars "unit"]),
   (chars "villa", [chars "villa", chars "townhouse", chars "townhome"]),
   (chars "penthouse", [chars "penthouse", chars "pent house"]),
   (chars "studio", [chars "studio"]),
   (chars "duplex", [chars "duplex"]),
   (chars "land", [chars "land", chars "plot"]),
   (chars "commercial", [chars "commercial", chars "office", chars "shop", chars "retail"])]

/-- The `for prop_type ... for keyword ... return prop_type.capitalize()`
loop of lines 250-255. -/
def ptGo (text_lower : List Char) : List (List Char × List (List Char)) → Option (List Char)
  | [] => none
  | (pt, kws) :: rest =>
    if kws.any (fun kw => pyIn kw text_lower) then some (pyCapitalize pt)
    else ptGo text_lower rest

/-- `extract_property_type` from `validators.py` (lines 228-255). -/
def extract_property_type (text : List Char) : Option (List Char) :=
  ptGo (text.map Char.toLower) property_types

example : extract_property_type (chars "a nice flat please") = some (chars "Apartment") := by decide
example : extract_property_type (chars "PENT HOUSE") = some (chars "Penthouse") := by decide
example : extract_property_type (chars "hello") = none := by decide
example : extract_location (chars "looking in JBR") = some (chars "JBR") := by decide
example : extract_location (chars "no area mentioned") = none := by decide

/-! ## Lead profile, scoring, conversation stage (app.py) -/

/-- The `lead_data` dict created in `get_conversation_state`
(app.py lines 115-123): six optional fields plus the
`validated_fields` list. -/
structure LeadData where
  name : Option (List Char)
  phone : Option (List Char)
  email : Option (List Char)
  budget : Option BVal
  location_preference : Option (List Char)
  property_type : Option (List Char)
  validated_fields : List (List Char)
deriving DecidableEq, Repr

/-- Python truthiness of an optional string field (`None` and `""` are falsy). -/
def pyTruthy (o : Option (List Char)) : Bool :=
  match o with
  | none => false
  | some v => !v.isEmpty

/-- The freshly created empty lead profile (app.py lines 115-123). -/
def initLead : LeadData :=
  ⟨none, none, none, none, none, none, []⟩

/-- `calculate_lead_score` from `validators.py` (lines 258-293):
weights 10/25/15/20/15/15 for the present fields, clamped with
`min(score, 100)`. -/
def calculate_lead_score (ld : LeadData) : Nat :=
  min ((if pyTruthy ld.name then 10 else 0)
    + (if pyTruthy ld.phone then 25 else 0)
    + (if pyTruthy ld.email then 15 else 0)
    + (if ld.budget.isSome then 20 else 0)
    + (if pyTruthy ld.location_preference then 15 else 0)
    + (if pyTruthy ld.property_type then 15 else 0)) 100

/-- Conversation stages (app.py line 114). -/
inductive Stage where
  | greeting
  | qualifying
  | scheduling
  | completed
deriving DecidableEq, Repr

/-- The stage-transition rule of `get_ai_response` (app.py lines 268-271),
applied after the merge with the freshly computed score. -/
def updateStage (lead_score : Nat) (stage : Stage) : Stage :=
  if lead_score ≥ 80 then .scheduling
  else if lead_score ≥ 40 then .qualifying
  else stage

/-! ## process_user_input (app.py lines 154-214) -/

/-- The name candidate of app.py lines 166-172: attempted only when the
message is short (at most 4 whitespace tokens and fewer than 50
characters), and kept only when `validate_name` accepts. -/
def nameCandidate (msg : List Char) : Option (List Char) :=
  if (pySplitWs msg).length ≤ 4 && msg.length < 50 then
    if (validate_name msg).is_valid then (validate_name msg).value else none
  else none

/-- The merge loop of app.py lines 203-205 for one string-valued field:
`lead_data[key] = value` runs only when the extracted `value` is truthy. -/
def mergeField (ext : Option (List Char)) (old : Option (List Char)) : Option (List Char) :=
  match ext with
  | some v => if v.isEmpty then old else some v
  | none => old

/-- The merge of app.py lines 203-205 for the budget field (the stored
dict is always truthy). -/
def mergeBudget (ext : Option BVal) (old : Option BVal) : Option BVal :=
  match ext with
  | some v => some v
  | none => old

/-- `process_user_input` from `app.py` (lines 154-214).  The external
libraries behind `validate_phone_number` (`phonenumbers`) and
`validate_email` (`email_validator`) are modelled as the parameters
`phoneV` and `emailV`: `some v` is a valid result normalised to `v`,
`none` a rejection (both validators catch their libraries' parse
exceptions internally).  `validate_budget` may raise, and the exception
propagates out of `process_user_input`, which has no handler.  On normal
completion the merged profile and `calculate_lead_score` of it are
returned. -/
def process_user_input (phoneV emailV : List Char → Option (List Char))
    (ld : LeadData) (msg : List Char) : Except Exn (LeadData × Nat) :=
  let nameExt : Option (List Char) :=
    if pyTruthy ld.name then none else nameCandidate msg
  let phoneExt : Option (List Char) := phoneV msg
  let emailExt : Option (List Char) := emailV msg
  match validate_budget msg with
  | .error e => .error e
  | .ok br =>
    let budgetExt : Option BVal := if br.is_valid then br.value else none
    let locExt : Option (List Char) := extract_location msg
    let propExt : Option (List Char) := extract_property_type msg
    let vf : List (List Char) := ld.validated_fields
      ++ (if nameExt.isSome then [chars "name"] else [])
      ++ (if phoneExt.isSome then [chars "phone"] else [])
      ++ (if emailExt.isSome then [chars "email"] else [])
      ++ (if br.is_valid then [chars "budget"] else [])
    let merged : LeadData :=
      { name := mergeField nameExt ld.name
        phone := mergeField phoneExt ld.phone
        email := mergeField emailExt ld.email
        budget := mergeBudget budgetExt ld.budget
        location_preference := mergeField locExt ld.location_preference
        property_type := mergeField propExt ld.property_type
        validated_fields := vf }
    .ok (merged, calculate_lead_score merged)

/-- An always-rejecting phone/email validator, for concrete runs whose
message contains neither a parsable phone number nor an email. -/
def neverValid : List Char → Option (List Char) := fun _ => none

example : process_user_input neverValid neverValid initLead (chars "500k") =
    .ok (⟨none, none, none, some (BVal.fixed 500000), none, none, [chars "budget"]⟩, 20) := by
  decide
example : process_user_input neverValid neverValid
      ⟨none, none, none, some (BVal.fixed 500000), none, none, [chars "budget"]⟩ (chars "500k") =
    .ok (⟨none, none, none, some (BVal.fixed 500000), none, none,
      [chars "budget", chars "budget"]⟩, 20) := by
  decide
example : ∀ pv ev : List Char → Option (List Char),
    process_user_input pv ev initLead (chars "500k-1M") = .error .typeError := by
  intro pv ev
  rfl

/-! ## Fuel stability of validate_budget

The recursive calls of `validate_budget` are on the stripped halves of a
split of the cleaned text, which are strictly shorter strings, so
`vbGo f` agrees with `validate_budget` whenever `f` exceeds the input
length.  This yields the defining equation `validate_budget_unfold`. -/

theorem pyStrip_length_le (l : List Char) : (pyStrip l).length ≤ l.length := by
  unfold pyStrip
  rw [List.length_reverse]
  refine le_trans (List.dropWhile_sublist _).length_le ?_
  rw [List.length_reverse]
  exact (List.dropWhile_sublist _).length_le

theorem pySplitAux_flatten_length (s : Char) (ss : List Char) :
    ∀ (l : List Char) (k : Nat) (acc : List Char),
      ((pySplitAux s ss k acc l).flatten).length ≤ acc.length + l.length := by
  intro l
  induction l with
  | nil => intro k acc; simp [pySplitAux]
  | cons c rest ih =>
    intro k acc
    cases k with
    | succ k' =>
      have h1 := ih k' acc
      simp only [pySplitAux, List.length_cons]
      omega
    | zero =>
      simp only [pySplitAux]
      split
      · have h1 := ih ss.length []
        simp only [List.length_nil, Nat.zero_add] at h1
        simp only [List.flatten_cons, List.length_append, List.length_reverse, List.length_cons]
        omega
      · have h1 := ih 0 (c :: acc)
        simp only [List.length_cons] at h1 ⊢
        omega

theorem pyRemoveAll_length_le (s : Char) (ss : List Char) (l : List Char) :
    (pyRemoveAll s ss l).length ≤ l.length := by
  have h1 := pySplitAux_flatten_length s ss l 0 []
  simpa [pyRemoveAll, pySplit] using h1

theorem vbClean_length_le (l : List Char) : (vbClean l).length ≤ l.length := by
  unfold vbClean
  refine le_trans (pyStrip_length_le _) ?_
  refine le_trans (List.length_filter_le _ _) ?_
  refine le_trans (pyRemoveAll_length_le _ _ _) ?_
  refine le_trans (pyRemoveAll_length_le _ _ _) ?_
  refine le_trans (pyRemoveAll_length_le _ _ _) ?_
  rw [List.length_map]
  exact pyStrip_length_le l

theorem pySplitAux_mem_length (s : Char) (ss : List Char) :
    ∀ (l : List Char) (k : Nat) (acc p : List Char),
      p ∈ pySplitAux s ss k acc l → p.length ≤ acc.length + l.length := by
  intro l
  induction l with
  | nil =>
    intro k acc p hp
    simp only [pySplitAux, List.mem_singleton] at hp
    simp [hp]
  | cons c rest ih =>
    intro k acc p hp
    cases k with
    | succ k' =>
      have h1 := ih k' acc p (by simpa [pySplitAux] using hp)
      simp only [List.length_cons]
      omega
    | zero =>
      simp only [pySplitAux] at hp
      rcases hp' : (c == s && List.isPrefixOf ss rest) with _ | _
      · rw [hp', if_neg (by simp)] at hp
        have h1 := ih 0 (c :: acc) p hp
        simp only [List.length_cons] at h1 ⊢
        omega
      · rw [hp', if_pos rfl] at hp
        rcases List.mem_cons.mp hp with hp2 | hp2
        · simp [hp2]
        · have h1 := ih ss.length [] p hp2
          simp only [List.length_nil, Nat.zero_add] at h1
          simp only [List.length_cons]
          omega

theorem pySplitAux_tail_length (s : Char) (ss : List Char) :
    ∀ (l : List Char) (k : Nat) (acc p : List Char),
      p ∈ (pySplitAux s ss k acc l).tail → p.length < l.length := by
  intro l
  induction l with
  | nil =>
    intro k acc p hp
    simp [pySplitAux] at hp
  | cons c rest ih =>
    intro k acc p hp
    cases k with
    | succ k' =>
      have h1 := ih k' acc p (by simpa [pySplitAux] using hp)
      simp only [List.length_cons]
      omega
    | zero =>
      simp only [pySplitAux] at hp
      rcases hp' : (c == s && List.isPrefixOf ss rest) with _ | _
      · rw [hp', if_neg (by simp)] at hp
        have h1 := ih 0 (c :: acc) p hp
        simp only [List.length_cons]
        omega
      · rw [hp', if_pos rfl] at hp
        simp only [List.tail_cons] at hp
        have h1 := pySplitAux_mem_length s ss rest ss.length [] p hp
        simp only [List.length_nil, Nat.zero_add] at h1
        simp only [List.length_cons]
        omega

theorem pySplitAux_head_length (s : Char) (ss : List Char) :
    ∀ (l : List Char) (k : Nat) (acc p : List Char) (tl : List (List Char)),
      pySplitAux s ss k acc l = p :: tl → tl ≠ [] → p.length < acc.length + l.length := by
  intro l
  induction l with
  | nil =>
    intro k acc p tl heq htl
    simp only [pySplitAux] at heq
    cases heq
    simp at htl
  | cons c rest ih =>
    intro k acc p tl heq htl
    cases k with
    | succ k' =>
      simp only [pySplitAux] at heq
      have h1 := ih k' acc p tl heq htl
      simp only [List.length_cons]
      omega
    | zero =>
      simp only [pySplitAux] at heq
      rcases hp' : (c == s && List.isPrefixOf ss rest) with _ | _
      · rw [hp', if_neg (by simp)] at heq
        have h1 := ih 0 (c :: acc) p tl heq htl
        simp only [List.length_cons] at h1 ⊢
        omega
      · rw [hp', if_pos rfl] at heq
        cases heq
        simp only [List.length_reverse, List.length_cons]
        omega

theorem pySplit_two_parts_length (s : Char) (ss : List Char) (l p0 p1 : List Char)
    (h : pySplit s ss l = [p0, p1]) : p0.length < l.length ∧ p1.length < l.length := by
  unfold pySplit at h
  constructor
  · have h1 := pySplitAux_head_length s ss l 0 [] p0 [p1] h (by simp)
    simpa using h1
  · have hm : p1 ∈ (pySplitAux s ss 0 [] l).tail := by rw [h]; simp
    exact pySplitAux_tail_length s ss l 0 [] p1 hm

theorem vbParts_two_length (text p0 p1 : List Char) (h : vbParts text = [p0, p1]) :
    p0.length < text.length ∧ p1.length < text.length := by
  unfold vbParts at h
  split at h
  · exact pySplit_two_parts_length _ _ _ _ _ h
  · exact pySplit_two_parts_length _ _ _ _ _ h

theorem vbBody_congr (r1 r2 : List Char → Except Exn (VRes BVal)) (input : List Char)
    (h : ∀ p : List Char, p.length < input.length → r1 p = r2 p) :
    vbBody r1 input = vbBody r2 input := by
  unfold vbBody
  split
  · rfl
  · split
    · split
      · rename_i p0 p1 heq
        have hb := vbParts_two_length _ _ _ heq
        have hc := vbClean_length_le input
        have h0 : (pyStrip p0).length < input.length :=
          lt_of_le_of_lt (pyStrip_length_le p0) (by omega)
        have h1 : (pyStrip p1).length < input.length :=
          lt_of_le_of_lt (pyStrip_length_le p1) (by omega)
        rw [h _ h0, h _ h1]
      · rfl
    · rfl

theorem vbGo_stable : ∀ (f : Nat) (input : List Char), input.length < f →
    vbGo f input = vbGo (input.length + 1) input := by
  intro f
  induction f using Nat.strong_induction_on with
  | _ f ih =>
    intro input hlen
    match f, hlen with
    | f' + 1, hlen =>
      show vbBody (vbGo f') input = vbBody (vbGo input.length) input
      apply vbBody_congr
      intro p hp
      have h1 : vbGo f' p = vbGo (p.length + 1) p :=
        ih f' (Nat.lt_succ_self f') p (by omega)
      have h2 : vbGo input.length p = vbGo (p.length + 1) p :=
        ih input.length hlen p hp
      rw [h1, h2]

/-- The defining equation of `validate_budget`: one unfolding of the body,
with the recursive range-part calls being `validate_budget` itself. -/
theorem validate_budget_unfold (input : List Char) :
    validate_budget input = vbBody validate_budget input := by
  show vbBody (vbGo input.length) input = vbBody validate_budget input
  apply vbBody_congr
  intro p hp
  exact vbGo_stable input.length p hp

/-! ## Helper lemmas about merging and scoring -/

theorem mergeField_idem (e o : Option (List Char)) :
    mergeField e (mergeField e o) = mergeField e o := by
  rcases e with _ | v
  · rfl
  · by_cases hv : v.isEmpty = true <;> simp [mergeField, hv]

theorem mergeBudget_idem (e : Option BVal) (o : Option BVal) :
    mergeBudget e (mergeBudget e o) = mergeBudget e o := by
  rcases e with _ | v <;> rfl

theorem nameMerge_idem (o cand : Option (List Char)) :
    mergeField (if pyTruthy (mergeField (if pyTruthy o then none else cand) o) then none else cand)
        (mergeField (if pyTruthy o then none else cand) o)
      = mergeField (if pyTruthy o then none else cand) o := by
  have hnone : ∀ w : Option (List Char), mergeField none w = w := fun _ => rfl
  by_cases ho : pyTruthy o = true
  · rw [if_pos ho, hnone, if_pos ho, hnone]
  · rw [if_neg ho]
    rcases cand with _ | v
    · rw [hnone, if_neg ho, hnone]
    · by_cases hv : v.isEmpty = true
      · have h2 : mergeField (some v) o = o := by
          show (if v.isEmpty then o else some v) = o
          rw [if_pos hv]
        rw [h2, if_neg ho, h2]
      · have h2 : mergeField (some v) o = some v := by
          show (if v.isEmpty then o else some v) = some v
          rw [if_neg hv]
        have h3 : pyTruthy (some v) = true := by
          show (!v.isEmpty) = true
          simp [hv]
        rw [h2, h3, if_pos rfl, hnone]

theorem calculate_lead_score_ignores_validated (n p e : Option (List Char)) (b : Option BVal)
    (lo pt : Option (List Char)) (v1 v2 : List (List Char)) :
    calculate_lead_score ⟨n, p, e, b, lo, pt, v1⟩ = calculate_lead_score ⟨n, p, e, b, lo, pt, v2⟩ :=
  rfl

/-! ## Spec-side definitions used to state the claims -/

/-- The six scored profile fields, in the order of `calculate_lead_score`. -/
inductive LeadField where
  | name
  | phone
  | email
  | budget
  | location_preference
  | property_type
deriving DecidableEq, Repr

/-- The spec's scoring weights: name 10, phone 25, email 15, budget 20,
location 15, property type 15. -/
def fieldWeight : LeadField → Nat
  | .name => 10
  | .phone => 25
  | .email => 15
  | .budget => 20
  | .location_preference => 15
  | .property_type => 15

/-- Presence (Python truthiness) of one field of a profile. -/
def fieldPresent (ld : LeadData) : LeadField → Bool
  | .name => pyTruthy ld.name
  | .phone => pyTruthy ld.phone
  | .email => pyTruthy ld.email
  | .budget => ld.budget.isSome
  | .location_preference => pyTruthy ld.location_preference
  | .property_type => pyTruthy ld.property_type

/-- All six scored fields. -/
def allLeadFields : List LeadField :=
  [.name, .phone, .email, .budget, .location_preference, .property_type]

/-- A profile with only the phone present. -/
def phoneOnlyLead : LeadData :=
  { initLead with phone := some (chars "+971501234567") }

/-- A profile with all six fields present. -/
def fullLead : LeadData :=
  ⟨some (chars "John"), some (chars "+971501234567"), some (chars "john@example.com"),
    some (BVal.fixed 500000), some (chars "Dubai Marina"), some (chars "Apartment"), []⟩

/-- A profile holding only a validated budget, the state after processing
`"500k"` from the initial state. -/
def budgetOnlyLead : LeadData :=
  ⟨none, none, none, some (BVal.fixed 500000), none, none, [chars "budget"]⟩

/-- View of a processing outcome used for the idempotence statement: the
six profile fields and the score of a normal result (`none` when the
processing raised). -/
def profileView : Except Exn (LeadData × Nat) →
    Option (Option (List Char) × Option (List Char) × Option (List Char) ×
      Option BVal × Option (List Char) × Option (List Char) × Nat)
  | .ok (ld, sc) => some (ld.name, ld.phone, ld.email, ld.budget,
      ld.location_preference, ld.property_type, sc)
  | .error _ => none

/-- Spec side of claim C9: the first category of the declared mapping one
of whose keywords occurs in the lowercased text. -/
def specFirstPropertyCategory (text : List Char) : Option (List Char) :=
  (property_types.find?
    (fun pk => pk.2.any (fun kw => pyIn kw (text.map Char.toLower)))).map Prod.fst

/-- Claim C10's hypothesis, part 1: the cleaned text splits (by the chosen
separator) into exactly two parts whose recursive validations both return
normally with `is_valid` results. -/
def rangePartsBothValid (text : List Char) : Bool :=
  match vbParts text with
  | [p0, p1] =>
    match validate_budget (pyStrip p0), validate_budget (pyStrip p1) with
    | .ok r0, .ok r1 => r0.is_valid && r1.is_valid
    | _, _ => false
  | _ => false

/-- Claim C10's hypothesis, part 2: the cleaned text splits into exactly
two parts and the recursive validation of one of them raises. -/
def rangePartRaises (text : List Char) : Bool :=
  match vbParts text with
  | [p0, p1] =>
    match validate_budget (pyStrip p0) with
    | .error _ => true
    | .ok _ =>
      match validate_budget (pyStrip p1) with
      | .error _ => true
      | .ok _ => false
  | _ => false

theorem vbFinish_valid_fixed (v : Nat) (hv : (vbFinish v).is_valid = true) :
    ∃ n : Nat, (vbFinish v).value = some (BVal.fixed n) := by
  simp only [vbFinish] at hv ⊢
  by_cases h1 : v < 10000
  · rw [if_pos h1] at hv
    simp at hv
  · rw [if_neg h1] at hv ⊢
    by_cases h2 : v > 1000000000
    · rw [if_pos h2] at hv
      simp at hv
    · rw [if_neg h2] at hv ⊢
      exact ⟨v, rfl⟩

theorem vbSingle_ok_fixed (t : List Char) (r : VRes BVal)
    (h : vbSingle t = .ok r) (hv : r.is_valid = true) :
    ∃ n : Nat, r.value = some (BVal.fixed n) := by
  have hex : ∃ po : Except Exn (Option Nat), vbSingle t = vbSingleBranch po := by
    unfold vbSingle
    split_ifs <;> exact ⟨_, rfl⟩
  rcases hex with ⟨po, hpo⟩
  rw [hpo] at h
  rcases po with e | v?
  · rw [show vbSingleBranch (.error e) = .error e from rfl] at h
    cases h
  · rcases v? with _ | v
    · rw [show vbSingleBranch (.ok none) =
        .ok ⟨false, none, chars "Could not parse budget amount"⟩ from rfl] at h
      cases h
      simp at hv
    · rw [show vbSingleBranch (.ok (some v)) = .ok (vbFinish v) from rfl] at h
      cases h
      exact vbFinish_valid_fixed v hv

set_option maxHeartbeats 1000000 in
/-- A `Valid` budget result always carries a `fixed` dict: the range
branch raises before it can return, so no `Range` value ever escapes. -/
theorem validate_budget_ok_fixed (input : List Char) (r : VRes BVal)
    (h : validate_budget input = .ok r) (hv : r.is_valid = true) :
    ∃ n : Nat, r.value = some (BVal.fixed n) := by
  rw [validate_budget_unfold] at h
  unfold vbBody vbRangeStep at h
  split at h
  · cases h
    simp at hv
  · split at h
    · split at h
      · split at h
        · cases h
        · split at h
          · cases h
          · split at h
            · cases h
            · exact vbSingle_ok_fixed _ _ h hv
      · exact vbSingle_ok_fixed _ _ h hv
    · exact vbSingle_ok_fixed _ _ h hv

/-! ## Claim C1: lead scoring -/

/-- C1.  For every lead profile, `calculate_lead_score` returns
`min(100, sum of the weights of the present fields)` with weights
name 10, phone 25, email 15, budget 20, location 15, property type 15;
the empty profile scores 0, a phone-only profile 25, and a profile with
all six fields 100. -/
theorem calculate_lead_score_is_capped_weight_sum :
    (∀ ld : LeadData, calculate_lead_score ld =
      min 100 (((allLeadFields.filter (fieldPresent ld)).map fieldWeight).sum))
    ∧ calculate_lead_score initLead = 0
    ∧ calculate_lead_score phoneOnlyLead = 25
    ∧ calculate_lead_score fullLead = 100 := by
  refine ⟨?_, by decide, by decide, by decide⟩
  intro ld
  rcases ld with ⟨n, p, e, b, lo, pt, vf⟩
  simp only [calculate_lead_score, allLeadFields, fieldPresent, List.filter_cons,
    List.filter_nil]
  cases hn : pyTruthy n <;> cases hp : pyTruthy p <;> cases he : pyTruthy e <;>
    cases hb : Option.isSome b <;> cases hl : pyTruthy lo <;> cases hpt : pyTruthy pt <;>
    decide

/-! ## Claim C2: stage transitions -/

theorem foldl_updateStage_ne_greeting : ∀ (scores : List Nat) (st : Stage),
    st ≠ .greeting → scores.foldl (fun s n => updateStage n s) st ≠ .greeting := by
  intro scores
  induction scores with
  | nil => intro st h; simpa using h
  | cons a as ih =>
    intro st h
    simp only [List.foldl_cons]
    apply ih
    unfold updateStage
    split
    · decide
    · split
      · decide
      · exact h

/-- C2.  The stage update after each merge: score ≥ 80 forces
`scheduling`, otherwise score ≥ 40 forces `qualifying`, otherwise the
stage is unchanged; consequently, over any sequence of per-message
scores, a stage that is not `greeting` never becomes `greeting` again. -/
theorem updateStage_rule_and_never_back_to_greeting :
    ∀ (sc : Nat) (st : Stage) (scores : List Nat),
      (80 ≤ sc → updateStage sc st = .scheduling)
      ∧ (sc < 80 → 40 ≤ sc → updateStage sc st = .qualifying)
      ∧ (sc < 40 → updateStage sc st = st)
      ∧ (st ≠ .greeting → scores.foldl (fun s n => updateStage n s) st ≠ .greeting) := by
  intro sc st scores
  refine ⟨?_, ?_, ?_, fun h => foldl_updateStage_ne_greeting scores st h⟩
  · intro h
    unfold updateStage
    rw [if_pos h]
  · intro h1 h2
    unfold updateStage
    rw [if_neg (by omega), if_pos h2]
  · intro h
    unfold updateStage
    rw [if_neg (by omega), if_neg (by omega)]

/-- Witness for C2 at concrete inputs. -/
theorem updateStage_rule_witness :
    updateStage 85 Stage.qualifying = Stage.scheduling
    ∧ updateStage 55 Stage.greeting = Stage.qualifying
    ∧ updateStage 20 Stage.scheduling = Stage.scheduling
    ∧ [(20 : Nat), 50, 90].foldl (fun s n => updateStage n s) Stage.qualifying ≠ Stage.greeting :=
  ⟨(updateStage_rule_and_never_back_to_greeting 85 .qualifying []).1 (by decide),
   (updateStage_rule_and_never_back_to_greeting 55 .greeting []).2.1 (by decide) (by decide),
   (updateStage_rule_and_never_back_to_greeting 20 .scheduling []).2.2.1 (by decide),
   (updateStage_rule_and_never_back_to_greeting 0 .qualifying [20, 50, 90]).2.2.2 (by decide)⟩

/-! ## Claim C3: processing a message never raises (refuted) -/

/-- C3 (refuting the no-exception claim).  For every phone/email
validator behaviour and every current profile, processing the message
`"500k-1M"` raises `TypeError`: both halves of the budget range validate,
and building the success message formats the halves' dict values with the
`,` format spec (validators.py line 121), which raises.  The exception
escapes `process_user_input`, which has no handler. -/
theorem process_user_input_raises_on_valid_range :
    ∀ (phoneV emailV : List Char → Option (List Char)) (ld : LeadData),
      process_user_input phoneV emailV ld (chars "500k-1M") = .error .typeError := by
  intro phoneV emailV ld
  rfl

/-! ## Claim C4: budget parsing rules and examples -/

/-- C4.  `validate_budget` parses `"500k"` to `Fixed 500000`, `"1.5M"` to
`Fixed 1500000` and rejects `"5000"` as too low, as claimed — but
`"500k-1M"` raises `TypeError` instead of returning
`Range{min 500000, max 1000000}` (the range success message formats a
dict, validators.py line 121), and the `LAKH` rule is dead: `"5 lakh"`
contains the letter `K`, so the `K` branch multiplies by 1,000 and the
amount 5,000 is rejected as too low instead of 500,000 being accepted. -/
theorem validate_budget_examples_and_range_crash :
    validate_budget (chars "500k") =
      .ok ⟨true, some (BVal.fixed 500000), chars "Budget: 500,000 AED"⟩
    ∧ validate_budget (chars "1.5M") =
      .ok ⟨true, some (BVal.fixed 1500000), chars "Budget: 1,500,000 AED"⟩
    ∧ validate_budget (chars "5000") = .ok ⟨false, none, chars "Budget seems too low"⟩
    ∧ validate_budget (chars "500k-1M") = .error .typeError
    ∧ validate_budget (chars "5 lakh") = .ok ⟨false, none, chars "Budget seems too low"⟩ := by
  decide

/-! ## Claim C5: processing the same message twice (corrected) -/

/-- C5 counterexample.  Processing `"500k"` twice from the initial state:
the second application re-validates the budget and appends `"budget"` to
the `validated_fields` list again, so the profile (which includes that
record) differs after the second application. -/
theorem process_twice_changes_validated_fields :
    process_user_input neverValid neverValid initLead (chars "500k") =
      .ok (budgetOnlyLead, 20)
    ∧ process_user_input neverValid neverValid budgetOnlyLead (chars "500k") =
      .ok (⟨none, none, none, some (BVal.fixed 500000), none, none,
        [chars "budget", chars "budget"]⟩, 20)
    ∧ (⟨none, none, none, some (BVal.fixed 500000), none, none,
        [chars "budget", chars "budget"]⟩ : LeadData) ≠ budgetOnlyLead := by
  decide

/-- C5 amended.  If processing a message completes normally, processing
the same message again from the resulting state completes normally with
the same six profile field values and the same score (only the
`validated_fields` list may grow further). -/
theorem process_twice_fields_and_score_stable :
    ∀ (phoneV emailV : List Char → Option (List Char)) (s0 : LeadData)
      (msg : List Char) (s1 : LeadData) (sc : Nat),
      process_user_input phoneV emailV s0 msg = .ok (s1, sc) →
      profileView (process_user_input phoneV emailV s1 msg) =
        some (s1.name, s1.phone, s1.email, s1.budget,
          s1.location_preference, s1.property_type, sc) := by
  intro phoneV emailV s0 msg s1 sc h
  cases hb : validate_budget msg with
  | error e =>
    simp only [process_user_input, hb] at h
    cases h
  | ok br =>
    simp only [process_user_input, hb, Except.ok.injEq, Prod.mk.injEq] at h
    obtain ⟨h1, h2⟩ := h
    subst h1
    subst h2
    simp only [process_user_input, hb, profileView]
    have hname := nameMerge_idem s0.name (nameCandidate msg)
    have hphone := mergeField_idem (phoneV msg) s0.phone
    have hemail := mergeField_idem (emailV msg) s0.email
    have hbud := mergeBudget_idem (if br.is_valid then br.value else none) s0.budget
    have hloc := mergeField_idem (extract_location msg) s0.location_preference
    have hprop := mergeField_idem (extract_property_type msg) s0.property_type
    simp only [hname, hphone, hemail, hbud, hloc, hprop, Option.some.injEq, Prod.mk.injEq,
      and_true, true_and]
    exact calculate_lead_score_ignores_validated _ _ _ _ _ _ _ _

/-- Witness for C5 amended: a second processing of `"700k"` from the
state its first processing produced. -/
theorem process_twice_fields_and_score_stable_witness :
    profileView (process_user_input neverValid neverValid
      ⟨none, none, none, some (BVal.fixed 700000), none, none, [chars "budget"]⟩
      (chars "700k")) =
    some (none, none, none, some (BVal.fixed 700000), none, none, 20) :=
  process_twice_fields_and_score_stable neverValid neverValid initLead (chars "700k")
    ⟨none, none, none, some (BVal.fixed 700000), none, none, [chars "budget"]⟩ 20 (by decide)

/-! ## Claim C6: reversed budget range (refuted: the range path raises) -/

/-- C6 (refuting the reversed-range claim).  On `"1M-500k"` both range
parts validate on their own (1,000,000 and 500,000, each within the
per-bound limits), but `validate_budget` raises `TypeError` while
formatting the range success message instead of returning a
`Valid Range` with `min > max` — indeed no `Valid Range` is ever
returned on any input (see `validate_budget_ok_fixed`). -/
theorem validate_budget_reversed_range_raises :
    validate_budget (chars "1M-500k") = .error .typeError
    ∧ validate_budget (chars "1M") =
      .ok ⟨true, some (BVal.fixed 1000000), chars "Budget: 1,000,000 AED"⟩
    ∧ validate_budget (chars "500k") =
      .ok ⟨true, some (BVal.fixed 500000), chars "Budget: 500,000 AED"⟩ := by
  decide

/-! ## Claim C7: digits in names (refuted: the regex rejects all digits) -/

/-- C7 (refuting the digit-tolerance claim).  `"Mohammed 2"` contains a
single digit, so it passes the more-than-2-digits check (the code comment
even cites this very name), yet the character-class regex of
validators.py line 188 contains no digits, so `validate_name` rejects it
with the invalid-characters message instead of accepting it. -/
theorem validate_name_rejects_single_digit_name :
    validate_name (chars "Mohammed 2") =
      ⟨false, none, chars "Name contains invalid characters"⟩
    ∧ ((pyStrip (chars "Mohammed 2")).filter Char.isDigit).length = 1 := by
  decide

/-! ## Claim C8: name formatting (corrected: capitalize, not title-case) -/

/-- C8 counterexample.  `validate_name "john o'brien"` succeeds but
returns `"John O'brien"`: Python's `str.capitalize()` lowercases
everything after the first character of each token, so the letter after
the apostrophe is not uppercased, and the claimed result
`"John O'Brien"` is different. -/
theorem validate_name_obrien_lowercase_after_apostrophe :
    validate_name (chars "john o" ++ [apos] ++ chars "brien") =
      ⟨true, some (chars "John O" ++ [apos] ++ chars "brien"), chars "Valid name"⟩
    ∧ (chars "John O" ++ [apos] ++ chars "brien") ≠
      (chars "John O" ++ [apos] ++ chars "Brien") := by
  decide

/-- C8 amended.  On success `validate_name` applies `str.capitalize` to
each whitespace-separated token of the stripped input (first character
uppercased, the remaining characters lowercased) and joins the tokens
with single spaces; in particular `"john o'brien"` becomes
`"John O'brien"` and runs of spaces collapse (`"john   smith"` becomes
`"John Smith"`). -/
theorem validate_name_capitalizes_and_joins_tokens :
    (∀ input : List Char, (validate_name input).is_valid = true →
      (validate_name input).value =
        some (List.intercalate [' '] ((pySplitWs (pyStrip input)).map pyCapitalize)))
    ∧ validate_name (chars "john   smith") =
      ⟨true, some (chars "John Smith"), chars "Valid name"⟩ := by
  constructor
  · intro input h
    have hcases : (validate_name input).is_valid = false
        ∨ validate_name input =
          ⟨true, some (List.intercalate [' '] ((pySplitWs (pyStrip input)).map pyCapitalize)),
            chars "Valid name"⟩ := by
      unfold validate_name
      split
      · left; rfl
      · split
        · left; rfl
        · split
          · left; rfl
          · split
            · left; rfl
            · split
              · left; rfl
              · right; rfl
    rcases hcases with hc | hc
    · rw [h] at hc
      cases hc
    · rw [hc]
  · decide

/-- Witness for C8 amended at a concrete accepted input. -/
theorem validate_name_capitalizes_witness :
    (validate_name (chars "anna maria")).value =
      some (List.intercalate [' ']
        ((pySplitWs (pyStrip (chars "anna maria"))).map pyCapitalize)) :=
  validate_name_capitalizes_and_joins_tokens.1 (chars "anna maria") (by decide)

/-! ## Claim C9: property-type extraction (corrected: capitalized result) -/

theorem ptGo_eq_find (tl : List Char) :
    ∀ L : List (List Char × List (List Char)),
      ptGo tl L = (L.find? (fun pk => pk.2.any (fun kw => pyIn kw tl))).map
        (fun pk => pyCapitalize pk.1) := by
  intro L
  induction L with
  | nil => rfl
  | cons pk rest ih =>
    rcases pk with ⟨pt, kws⟩
    by_cases h : (kws.any fun kw => pyIn kw tl) = true
    · simp [ptGo, h]
    · rw [Bool.not_eq_true] at h
      simp [ptGo, h, ih]

/-- C9 counterexample.  `extract_property_type "flat"` returns
`"Apartment"` (the code capitalizes the category name), which is not an
element of the lowercase vocabulary
`{apartment, villa, penthouse, studio, duplex, land, commercial}`. -/
theorem extract_property_type_not_in_lowercase_vocab :
    extract_property_type (chars "flat") = some (chars "Apartment")
    ∧ (chars "Apartment") ∉ [chars "apartment", chars "villa", chars "penthouse",
      chars "studio", chars "duplex", chars "land", chars "commercial"] := by
  decide

/-- C9 amended.  `extract_property_type` returns either `none` or the
capitalized name of the first category, in declaration order, one of
whose keywords occurs as a case-insensitive substring of the text; every
non-empty result lies in the capitalized vocabulary
`{Apartment, Villa, Penthouse, Studio, Duplex, Land, Commercial}`. -/
theorem extract_property_type_first_match_capitalized :
    ∀ text : List Char,
      extract_property_type text = (specFirstPropertyCategory text).map pyCapitalize
      ∧ ∀ r : List Char, extract_property_type text = some r →
          r ∈ [chars "Apartment", chars "Villa", chars "Penthouse", chars "Studio",
            chars "Duplex", chars "Land", chars "Commercial"] := by
  intro text
  have hfind := ptGo_eq_find (text.map Char.toLower) property_types
  constructor
  · unfold extract_property_type specFirstPropertyCategory
    rw [hfind, Option.map_map]
    rfl
  · intro r hr
    unfold extract_property_type at hr
    rw [hfind] at hr
    rcases Option.map_eq_some'.mp hr with ⟨pk, hpk, hfk⟩
    have hmem := List.mem_of_find?_eq_some hpk
    subst hfk
    simp only [property_types, List.mem_cons, List.not_mem_nil, or_false] at hmem
    rcases hmem with h | h | h | h | h | h | h <;> rw [h] <;> decide

/-- Witness for C9 amended: a concrete extraction and its membership in
the capitalized vocabulary. -/
theorem extract_property_type_first_match_witness :
    (chars "Villa") ∈ [chars "Apartment", chars "Villa", chars "Penthouse", chars "Studio",
      chars "Duplex", chars "Land", chars "Commercial"] :=
  (extract_property_type_first_match_capitalized (chars "a villa please")).2
    (chars "Villa") (by decide)

/-! ## Claim C10: range fall-through to single-amount parsing (corrected) -/

/-- C10 counterexample.  On `"1M-2M TO 3M"` the cleaned text contains the
separator and its two `'-'`-split parts do not both validate (the second
part `"2M TO 3M"` is itself a range whose validation raises), yet
`validate_budget` does not fall through to single-amount parsing (which
would give `Fixed 123000000`): the inner `TypeError` propagates. -/
theorem validate_budget_nested_range_raise_propagates :
    (pyIn (chars "-") (vbClean (chars "1M-2M TO 3M")) ||
      pyIn (chars "TO") (vbClean (chars "1M-2M TO 3M"))) = true
    ∧ rangePartsBothValid (vbClean (chars "1M-2M TO 3M")) = false
    ∧ validate_budget (chars "1M-2M TO 3M") = .error .typeError
    ∧ vbSingle (vbClean (chars "1M-2M TO 3M")) =
      .ok ⟨true, some (BVal.fixed 123000000), chars "Budget: 123,000,000 AED"⟩ := by
  decide

set_option maxRecDepth 10000 in
/-- C10 amended.  When the cleaned text contains a range separator but
splitting does not produce exactly two parts that both validate, and no
recursive part validation raises, `validate_budget`'s result is exactly
that of parsing the whole text as a single amount — a single-amount parse
that itself may raise the uncaught `OverflowError` when the stripped
numeral overflows `float()`.  In particular `"500-600"` gives
`Fixed 500600` (the stripped digits concatenated), while two hundred
nines on each side of `-` fall through to a 400-digit numeral whose
`int(float(...))` raises `OverflowError`. -/
theorem validate_budget_falls_through_to_single_parse :
    (∀ input : List Char,
      (pyIn (chars "-") (vbClean input) || pyIn (chars "TO") (vbClean input)) = true →
      rangePartsBothValid (vbClean input) = false →
      rangePartRaises (vbClean input) = false →
      validate_budget input = vbSingle (vbClean input))
    ∧ validate_budget (chars "500-600") =
      .ok ⟨true, some (BVal.fixed 500600), chars "Budget: 500,600 AED"⟩
    ∧ validate_budget (nines 200 ++ chars "-" ++ nines 200) = .error .overflowError
    ∧ vbSingle (vbClean (nines 200 ++ chars "-" ++ nines 200)) = .error .overflowError := by
  constructor
  · intro input hsep hbv hrr
    rcases input with _ | ⟨c, cs⟩
    · exact absurd hsep (by decide)
    · rw [validate_budget_unfold]
      unfold vbBody
      rw [if_neg (by simp), if_pos hsep]
      unfold rangePartsBothValid at hbv
      unfold rangePartRaises at hrr
      rcases hpp : vbParts (vbClean (c :: cs)) with _ | ⟨p0, _ | ⟨p1, _ | ⟨p2, tl⟩⟩⟩
      · simp only [hpp]
      · simp only [hpp]
      · rw [hpp] at hbv hrr
        have hbv1 : (match validate_budget (pyStrip p0), validate_budget (pyStrip p1) with
          | .ok r0, .ok r1 => r0.is_valid && r1.is_valid
          | _, _ => false) = false := hbv
        have hrr1 : (match validate_budget (pyStrip p0) with
          | .error _ => true
          | .ok _ =>
            match validate_budget (pyStrip p1) with
            | .error _ => true
            | .ok _ => false) = false := hrr
        have hgoal : vbRangeStep (validate_budget (pyStrip p0)) (validate_budget (pyStrip p1))
            (vbSingle (vbClean (c :: cs))) = vbSingle (vbClean (c :: cs)) := by
          cases hv0 : validate_budget (pyStrip p0) with
          | error e =>
            rw [hv0] at hrr1
            exact absurd (show true = false from hrr1) (by decide)
          | ok r0 =>
            cases hv1 : validate_budget (pyStrip p1) with
            | error e =>
              rw [hv0, hv1] at hrr1
              exact absurd (show true = false from hrr1) (by decide)
            | ok r1 =>
              rw [hv0, hv1] at hbv1
              have hbv2 : (r0.is_valid && r1.is_valid) = false := hbv1
              show (if (r0.is_valid && r1.is_valid) = true then Except.error Exn.typeError
                else vbSingle (vbClean (c :: cs))) = vbSingle (vbClean (c :: cs))
              rw [if_neg (by simp [hbv2])]
        simp only [hpp]
        exact hgoal
      · simp only [hpp]
  · refine ⟨by decide, by decide, by decide⟩

/-- Witness for C10 amended at the concrete input `"500-600"`. -/
theorem validate_budget_falls_through_witness :
    validate_budget (chars "500-600") = vbSingle (vbClean (chars "500-600")) :=
  validate_budget_falls_through_to_single_parse.1 (chars "500-600")
    (by decide) (by decide) (by decide)
